import Mathlib

/-!
Verification of the CEAPSI demand-forecasting and staffing pipeline.

This file gives a shallow embedding, over exact rationals, of the parts of the
repository that the specification's testable claims are about:

* `src/forecasting/data_preparation.py` — `DataPreparationProphet`
  (`consolidar_datos_diarios`, `calcular_variable_objetivo`,
  `crear_dataframe_prophet` with its Sunday / hard-bound / IQR filters);
* `src/forecasting/predictions.py` — `CeapsiPredictionEngine`
  (`estimar_regresores_futuros` future-date loop, `detectar_alertas`,
  `generar_recomendaciones_staffing`);
* `src/pcf_scripts/app.py` — `PipelineProcessor`
  (`entrenar_modelos_para_tipo` ensemble weighting, and the skip logic of
  `ejecutar_entrenamiento_modelos`).

Conventions of the embedding:

* Dates are natural numbers counting days from an (arbitrary) Monday, so that
  `d % 7` is exactly Python's `date.weekday()` / pandas `dt.dayofweek`
  (0 = Monday, …, 6 = Sunday).
* Python floats become exact rationals `ℚ`; `np.ceil` composed with `int(...)`
  on a nonnegative value is the mathematical ceiling `pyceil`.
* Fallible Python code (a `None` return, `min()` of an empty sequence) is
  embedded in `Option`: `none` models the raised exception or the `None`;
  numpy `float64` arithmetic, which never raises on division, is modelled by
  the IEEE-style `Flotante` type where its nan behaviour matters.
* pandas `groupby` over the date key sorts the distinct keys ascending and
  aggregates the rows of each key; sorting is modelled with `insertionSort`,
  a stable sort, matching Python's stable sorts.
-/

/-- Python `date.weekday()` / pandas `dt.dayofweek` for a day index with day 0
a Monday: 0 = Monday, …, 5 = Saturday, 6 = Sunday. -/
def diaSemana (d : Nat) : Nat := d % 7

/-- Embeds `int(np.ceil(x))` for the nonnegative workload values the scripts
feed it: the mathematical ceiling. -/
def pyceil (x : ℚ) : ℤ := ⌈x⌉

/-- Python division `a / b` in the exact-rational model: `none` marks a zero
denominator, a case this model leaves undefined and that the positive-MAE
claims never reach. (The source's values are numpy `float64`, which do not
raise on division: the zero-denominator branch is modelled faithfully by
`Flotante` and `fdiv` below.) -/
def pydiv (a b : ℚ) : Option ℚ := if b = 0 then none else some (a / b)

/-- Embeds Python `min(...)` over a list of numbers: `none` models the
`ValueError` raised on an empty sequence. -/
def pymin : List ℚ → Option ℚ
  | [] => none
  | [x] => some x
  | x :: y :: xs =>
    match pymin (y :: xs) with
    | none => some x
    | some m => some (min x m)

/-- A fallible loop body mapped over a list: the first `none` (a raised
exception in the Python original) aborts the whole computation. -/
def mapaOpcional (f : α → Option β) : List α → Option (List β)
  | [] => some []
  | x :: xs =>
    match f x, mapaOpcional f xs with
    | some y, some ys => some (y :: ys)
    | _, _ => none

theorem pymin_isSome {l : List ℚ} (h : l ≠ []) : (pymin l).isSome := by
  cases l with
  | nil => simp at h
  | cons x xs =>
    cases xs with
    | nil => simp [pymin]
    | cons y ys =>
      rw [pymin]
      rcases hrec : pymin (y :: ys) with _ | m' <;> simp

theorem pymin_mem : ∀ {l : List ℚ} {m : ℚ}, pymin l = some m → m ∈ l := by
  intro l
  induction l with
  | nil => intro m h; simp [pymin] at h
  | cons x xs ih =>
    intro m h
    cases xs with
    | nil => simp [pymin] at h; simp [h]
    | cons y ys =>
      rw [pymin] at h
      rcases hrec : pymin (y :: ys) with _ | m'
      · rw [hrec] at h
        simp at h
        simp [h]
      · rw [hrec] at h
        simp at h
        subst h
        rcases le_total x m' with hle | hle
        · rw [min_eq_left hle]
          exact List.mem_cons_self x _
        · rw [min_eq_right hle]
          exact List.mem_cons_of_mem x (ih hrec)

theorem pymin_le : ∀ {l : List ℚ} {m : ℚ}, pymin l = some m → ∀ x ∈ l, m ≤ x := by
  intro l
  induction l with
  | nil => intro m h; simp [pymin] at h
  | cons x xs ih =>
    intro m h z hz
    cases xs with
    | nil =>
      simp [pymin] at h
      simp at hz
      simp [h, hz]
    | cons y ys =>
      rw [pymin] at h
      rcases hrec : pymin (y :: ys) with _ | m'
      · have hs := @pymin_isSome (y :: ys) (by simp)
        rw [hrec] at hs
        simp at hs
      · rw [hrec] at h
        simp at h
        rcases List.mem_cons.mp hz with hzx | hz'
        · rw [hzx]
          exact h ▸ min_le_left _ _
        · exact le_trans (h ▸ min_le_right _ _) (ih hrec z hz')

theorem mapaOpcional_eq_some {f : α → Option β} {g : α → β} :
    ∀ {l : List α}, (∀ x ∈ l, f x = some (g x)) →
      mapaOpcional f l = some (l.map g) := by
  intro l
  induction l with
  | nil => intro _; simp [mapaOpcional]
  | cons x xs ih =>
    intro h
    rw [mapaOpcional, h x (by simp), ih (fun z hz => h z (by simp [hz]))]
    simp

theorem mapaOpcional_eq_none {f : α → Option β} :
    ∀ {l : List α} {x : α}, x ∈ l → f x = none → mapaOpcional f l = none := by
  intro l
  induction l with
  | nil => intro x h; simp at h
  | cons z zs ih =>
    intro x hmem hnone
    rcases List.mem_cons.mp hmem with rfl | h'
    · rw [mapaOpcional, hnone]
    · rw [mapaOpcional, ih h' hnone]
      rcases f z with _ | y <;> rfl

/-! ## Data model: `data_preparation.py` -/

/-- Transaction kinds of `consolidar_datos_diarios`. -/
inductive TipoTransaccion
  | reserva
  | conversacion
  | llamada
deriving DecidableEq, Repr

/-- One raw normalized record (an entry of `datos_normalizados['reservas']`,
`['conversaciones']` or `['llamadas']`): a date and an optional
`duracion` field (minutes); `none` models a record lacking the field. -/
structure RegistroCrudo where
  fecha : Nat
  duracion : Option ℚ
deriving DecidableEq, Repr

/-- The input JSON of `DataPreparationProphet`: three collections of raw
records. -/
structure DatosNormalizados where
  reservas : List RegistroCrudo
  conversaciones : List RegistroCrudo
  llamadas : List RegistroCrudo

/-- One consolidated transaction row of the `df_transacciones` DataFrame
(the columns the downstream aggregations read: `fecha_str`, `duracion`,
`tipo`). -/
structure Transaccion where
  fecha : Nat
  duracion : ℚ
  tipo : TipoTransaccion
deriving DecidableEq, Repr

/-- Embeds `DataPreparationProphet.consolidar_datos_diarios`: reservations,
conversations and calls are appended in that order; a missing `duracion`
defaults to 45, 10 and 5 minutes respectively
(`res.get('duracion', 45)`, `conv.get('duracion', 10)`,
`llamada.get('duracion', 5)`). -/
def consolidar_datos_diarios (datos : DatosNormalizados) : List Transaccion :=
  datos.reservas.map
      (fun r => ⟨r.fecha, r.duracion.getD 45, TipoTransaccion.reserva⟩)
    ++ datos.conversaciones.map
      (fun r => ⟨r.fecha, r.duracion.getD 10, TipoTransaccion.conversacion⟩)
    ++ datos.llamadas.map
      (fun r => ⟨r.fecha, r.duracion.getD 5, TipoTransaccion.llamada⟩)

/-- The distinct dates of a transaction list in ascending order: the group
keys of pandas `groupby('fecha_str')` (keys are sorted ascending; the ISO
date strings sort chronologically). -/
def fechas_unicas (txs : List Transaccion) : List Nat :=
  ((txs.map (·.fecha)).dedup).insertionSort (· ≤ ·)

/-- Embeds `DataPreparationProphet.calcular_variable_objetivo`: group the
transactions by day, aggregate `duracion` by sum and count the rows, then
set `y = (duracion / 60 + conteo * 0.1) / 8` (hours of work plus a 0.1 h
per-event overhead, converted to 8-hour person-days). -/
def calcular_variable_objetivo (txs : List Transaccion) : List (Nat × ℚ) :=
  (fechas_unicas txs).map (fun d =>
    let filas := txs.filter (fun t => t.fecha = d)
    let duracion := (filas.map (·.duracion)).sum
    let conteo : ℚ := filas.length
    let horas_totales := duracion / 60 + conteo * (1 / 10)
    (d, horas_totales / 8))

/-- Embeds pandas `Series.quantile(q)` with the default linear
interpolation: on the sorted values `s` of length `n`, with
`h = q * (n - 1)`, the result is
`s[floor h] + (h - floor h) * (s[floor h + 1] - s[floor h])`;
`none` models the `NaN` returned for an empty series. -/
def cuantil (l : List ℚ) (q : ℚ) : Option ℚ :=
  let s := l.insertionSort (· ≤ ·)
  if s.isEmpty then none
  else
    let n := s.length
    let h : ℚ := q * ((n : ℚ) - 1)
    let i : Nat := (⌊h⌋).toNat
    let lo := s.getD i 0
    let hi := s.getD (min (i + 1) (n - 1)) 0
    some (lo + (h - (i : ℚ)) * (hi - lo))

/-- Embeds the IQR outlier fence of `crear_dataframe_prophet`:
`Q1 - 1.5*IQR ≤ y ≤ Q3 + 1.5*IQR`. When the series is empty both quantiles
are `NaN` and the pandas comparison with `NaN` is false for every row, so
nothing survives. -/
def filtro_iqr (df : List (Nat × ℚ)) : List (Nat × ℚ) :=
  match cuantil (df.map (·.2)) (1 / 4), cuantil (df.map (·.2)) (3 / 4) with
  | some q1, some q3 =>
    let iqr := q3 - q1
    df.filter (fun p => q1 - 3 / 2 * iqr ≤ p.2 ∧ p.2 ≤ q3 + 3 / 2 * iqr)
  | _, _ => []

/-- The `ds` keys of the `calcular_regresores` DataFrame: the same grouped
dates as the target frame (only the key column is modelled; the claims under
verification read no regressor values). -/
def fechas_regresores (txs : List Transaccion) : List Nat :=
  fechas_unicas txs

/-- Embeds `DataPreparationProphet.crear_dataframe_prophet` on already-loaded
input (`none` input models `cargar_datos_normalizados` returning `None`):
consolidate, compute the target, drop Sundays (`dayofweek < 6`), keep
`10 ≤ y ≤ 300`, apply the IQR fence, inner-merge with the regressor frame on
`ds`, drop Sundays again, and sort by date. The function performs no
minimum-day-count check. -/
def crear_dataframe_prophet (datos : Option DatosNormalizados) :
    Option (List (Nat × ℚ)) :=
  match datos with
  | none => none
  | some datos =>
    let txs := consolidar_datos_diarios datos
    let objetivo := calcular_variable_objetivo txs
    let objetivo := objetivo.filter (fun p => diaSemana p.1 < 6)
    let objetivo := objetivo.filter (fun p => 10 ≤ p.2 ∧ p.2 ≤ 300)
    let objetivo := filtro_iqr objetivo
    let combinado := objetivo.filter (fun p => p.1 ∈ fechas_regresores txs)
    let combinado := combinado.filter (fun p => diaSemana p.1 < 6)
    some (combinado.insertionSort (fun a b => a.1 ≤ b.1))

/-! ## Data model: `predictions.py` -/

/-- One forecast row (`ds`, `yhat`, `yhat_lower`, `yhat_upper`) as read by
`detectar_alertas` and `generar_recomendaciones_staffing`. -/
structure ForecastPoint where
  ds : Nat
  yhat : ℚ
  yhat_lower : ℚ
  yhat_upper : ℚ
deriving DecidableEq, Repr

/-- Embeds the future-date loop of
`CeapsiPredictionEngine.estimar_regresores_futuros`: starting at `fecha`,
walk forward one day at a time, collecting a date whenever its weekday is
Monday–Saturday (`weekday() < 6`), until `n` dates are collected. -/
def generar_fechas_futuras (fecha n : Nat) : List Nat :=
  if n = 0 then []
  else if diaSemana fecha < 6 then
    fecha :: generar_fechas_futuras (fecha + 1) (n - 1)
  else
    generar_fechas_futuras (fecha + 1) n
termination_by 2 * n + fecha % 7 / 6
decreasing_by
  · omega
  · simp only [diaSemana] at *
    omega

/-- Embeds the date handling of
`CeapsiPredictionEngine.generar_predicciones_automaticas`: Prophet's
`make_future_dataframe` extends the history dates with `dias + 7`
consecutive days after the last one; the frame is then filtered to
`dayofweek < 6`, and after prediction only the rows with `ds` strictly
after today (`fecha_corte`) are kept, the first `dias` of them. -/
def fechas_generar_predicciones (hist : List Nat) (ultimo dias hoy : Nat) :
    List Nat :=
  let future := hist ++ (List.range (dias + 7)).map (fun i => ultimo + 1 + i)
  let future := future.filter (fun d => diaSemana d < 6)
  ((future.filter (fun d => hoy < d)).take dias)

/-- Alert kinds of `detectar_alertas`. -/
inductive TipoAlerta
  | CRITICA
  | ALTA
  | BAJA
  | INCERTIDUMBRE
  | PATRON_SEMANAL
deriving DecidableEq, Repr

/-- One alert (the fields the claims under verification read). -/
structure Alerta where
  tipo : TipoAlerta
  fecha : Nat
  prioridad : Nat
deriving DecidableEq, Repr

/-- The per-row body of the `detectar_alertas` loop, with its hard-coded
thresholds `umbral_muy_alto = 60`, `umbral_alto = 50`, `umbral_bajo = 25`:
an `if/elif/elif` chain on `horas = yhat` produces at most one demand alert
(CRITICA priority 1, ALTA priority 2, BAJA priority 3), then an independent
`if` adds an INCERTIDUMBRE alert (priority 3) when
`yhat_upper - yhat > 15`. -/
def alertas_de_punto (row : ForecastPoint) : List Alerta :=
  let horas := row.yhat
  let demanda : List Alerta :=
    if horas > 60 then [⟨TipoAlerta.CRITICA, row.ds, 1⟩]
    else if horas > 50 then [⟨TipoAlerta.ALTA, row.ds, 2⟩]
    else if horas < 25 then [⟨TipoAlerta.BAJA, row.ds, 3⟩]
    else []
  let incertidumbre := row.yhat_upper - horas
  demanda ++
    (if incertidumbre > 15 then [⟨TipoAlerta.INCERTIDUMBRE, row.ds, 3⟩] else [])

/-- The mean `yhat` of the first seven forecast rows
(`predicciones.head(7)['yhat'].mean()`). -/
def promedio_primera_semana (ps : List ForecastPoint) : ℚ :=
  ((ps.take 7).map (·.yhat)).sum / 7

/-- Embeds `CeapsiPredictionEngine.detectar_alertas`: `None` or an empty
forecast yields `[]`; otherwise the per-row alerts are collected in order,
one PATRON_SEMANAL alert (priority 2) is appended when there are at least 7
rows and the first week's mean exceeds 45, and the result is sorted
ascending by `prioridad`. -/
def detectar_alertas (predicciones : Option (List ForecastPoint)) :
    List Alerta :=
  match predicciones with
  | none => []
  | some ps =>
    if ps.length = 0 then []
    else
      let alertas := ps.flatMap alertas_de_punto
      let alertas := alertas ++
        (if 7 ≤ ps.length then
          (if promedio_primera_semana ps > 45 then
            (match ps.head? with
             | some p0 => [⟨TipoAlerta.PATRON_SEMANAL, p0.ds, 2⟩]
             | none => [])
           else [])
         else [])
      alertas.insertionSort (fun a b => a.prioridad ≤ b.prioridad)

/-- The `personal_total` block of a staffing recommendation. -/
structure PersonalTotal where
  minimo : ℤ
  optimo : ℤ
  maximo : ℤ
deriving DecidableEq, Repr

/-- One staffing recommendation (the fields the claims under verification
read). -/
structure Recomendacion where
  fecha : Nat
  personal_total : PersonalTotal
deriving DecidableEq, Repr

/-- The per-row personnel computation of
`generar_recomendaciones_staffing`:
`personal_minimo = max(3, int(np.ceil(yhat_lower / 8)))`,
`personal_optimo = max(4, int(np.ceil(yhat / 8)))`,
`personal_maximo = int(np.ceil(yhat_upper / 8))`. -/
def personal_de_punto (row : ForecastPoint) : PersonalTotal :=
  ⟨max 3 (pyceil (row.yhat_lower / 8)),
   max 4 (pyceil (row.yhat / 8)),
   pyceil (row.yhat_upper / 8)⟩

/-- Embeds `CeapsiPredictionEngine.generar_recomendaciones_staffing`: `None`
or an empty forecast yields `[]`; otherwise one recommendation per row. -/
def generar_recomendaciones_staffing
    (predicciones : Option (List ForecastPoint)) : List Recomendacion :=
  match predicciones with
  | none => []
  | some ps =>
    if ps.length = 0 then []
    else ps.map (fun row => ⟨row.ds, personal_de_punto row⟩)

/-! ## Ensemble weighting and training-step control flow: `app.py` -/

/-- Embeds the ensemble-weight computation of
`PipelineProcessor.entrenar_modelos_para_tipo` (app.py lines 427–439):
`mae_min = min(maes)`; `peso = mae_min / modelo['mae_cv']` for each family;
then the weights are normalized by their sum
(`pesos = {k: v / suma_pesos}`). This exact-rational model covers the
nonzero-MAE domain; `none` marks `min()` of an empty sequence (a real
`ValueError`) or a zero denominator, which this model leaves undefined —
the behaviour of the actual `np.float64` values on a zero MAE
(`0.0/0.0` is `nan`, no exception) is modelled faithfully by
`calcular_pesos_ensemble_flotante` below. -/
def calcular_pesos_ensemble (maes : List ℚ) : Option (List ℚ) :=
  match pymin maes with
  | none => none
  | some mae_min =>
    match mapaOpcional (fun mae => pydiv mae_min mae) maes with
    | none => none
    | some pesos =>
      let suma_pesos := pesos.sum
      mapaOpcional (fun p => pydiv p suma_pesos) pesos

/-- Embeds `PipelineProcessor.entrenar_modelos_para_tipo`: with fewer than 10
non-null rows the function returns `None` (inner `none`); otherwise the
simulated per-family MAEs (here passed in as `maes`) are turned into
ensemble weights. The outer `none` propagates the undefined cases of
`calcular_pesos_ensemble`. -/
def entrenar_modelos_para_tipo (dataset : List ℚ) (maes : List ℚ) :
    Option (Option (List ℚ)) :=
  if dataset.length < 10 then some none
  else
    match calcular_pesos_ensemble maes with
    | none => none
    | some pesos => some (some pesos)

/-- Embeds `PipelineProcessor.ejecutar_entrenamiento_modelos`: each per-type
dataset with fewer than 30 rows is skipped with a warning (`continue`); the
remaining ones are trained in order; the step returns `True` together with
the trained models unless an exception escapes, in which case the
`except` handler returns `False`. No `InsufficientDataError` (or any other
error) is raised for skipped datasets. -/
def ejecutar_entrenamiento_modelos (datasets : List (List ℚ))
    (maes : List ℚ) : Bool × List (Option (List ℚ)) :=
  let seleccionados := datasets.filterMap
    (fun ds => if ds.length < 30 then none else some ds)
  match mapaOpcional (fun ds => entrenar_modelos_para_tipo ds maes)
      seleccionados with
  | none => (false, [])
  | some entrenados => (true, entrenados)

/-! ## np.float64 semantics of the ensemble weighter

The `mae_cv` values at app.py lines 427–439 are `np.random.uniform(...)`
results, i.e. numpy `float64` scalars, and every arithmetic step of the
weighter (`min`, `/`, `sum`) stays in `float64`. `float64` division never
raises: `0.0/0.0` yields `nan` (with only a `RuntimeWarning`), and a `nan`
poisons every subsequent sum and division. The types and functions below
model exactly that, so the weighter's behaviour on a zero MAE can be settled
faithfully. -/

/-- The value of a numpy `float64` in exact arithmetic: a rational number, an
infinity, or `nan`. -/
inductive Flotante
  | num (val : ℚ)
  | inf
  | neginf
  | nan
deriving DecidableEq, Repr

/-- IEEE addition on `Flotante`: `nan` propagates; `inf + (-inf)` is
`nan`. -/
def fadd : Flotante → Flotante → Flotante
  | Flotante.num x, Flotante.num y => Flotante.num (x + y)
  | Flotante.num _, Flotante.inf => Flotante.inf
  | Flotante.inf, Flotante.num _ => Flotante.inf
  | Flotante.num _, Flotante.neginf => Flotante.neginf
  | Flotante.neginf, Flotante.num _ => Flotante.neginf
  | Flotante.inf, Flotante.inf => Flotante.inf
  | Flotante.neginf, Flotante.neginf => Flotante.neginf
  | _, _ => Flotante.nan

/-- IEEE division on `Flotante`: `0/0` and any `nan` operand give `nan`
(no exception is ever raised); `x/0` gives `±inf` for `x ≠ 0`; `x/±inf`
gives 0. -/
def fdiv : Flotante → Flotante → Flotante
  | Flotante.num x, Flotante.num y =>
    if y = 0 then
      if x = 0 then Flotante.nan
      else if 0 < x then Flotante.inf else Flotante.neginf
    else Flotante.num (x / y)
  | Flotante.num _, Flotante.inf => Flotante.num 0
  | Flotante.num _, Flotante.neginf => Flotante.num 0
  | Flotante.inf, Flotante.num y =>
    if 0 ≤ y then Flotante.inf else Flotante.neginf
  | Flotante.neginf, Flotante.num y =>
    if 0 ≤ y then Flotante.neginf else Flotante.inf
  | _, _ => Flotante.nan

/-- The float `<` comparison: any comparison involving `nan` is false. -/
def flt : Flotante → Flotante → Bool
  | Flotante.num x, Flotante.num y => decide (x < y)
  | Flotante.num _, Flotante.inf => true
  | Flotante.neginf, Flotante.num _ => true
  | Flotante.neginf, Flotante.inf => true
  | _, _ => false

/-- Python `min(...)` over float values: start from the first element and
replace the running minimum whenever a candidate compares `<` true; `none`
models the `ValueError` on an empty sequence. -/
def fmin : List Flotante → Option Flotante
  | [] => none
  | x :: xs => some (xs.foldl (fun m z => if flt z m then z else m) x)

/-- Python `sum(...)` over float values: a left fold of `fadd` from 0. -/
def fsum (l : List Flotante) : Flotante := l.foldl fadd (Flotante.num 0)

/-- Embeds the ensemble-weight computation of
`PipelineProcessor.entrenar_modelos_para_tipo` (app.py lines 427–439) at the
actual `np.float64` semantics of its inputs: `mae_min = min(maes)`;
`peso = mae_min / modelo['mae_cv']` per family; normalization by the sum.
Division never raises, so the computation completes for every nonempty
input; `none` models only the `min()` `ValueError` on an empty sequence. -/
def calcular_pesos_ensemble_flotante (maes : List Flotante) :
    Option (List Flotante) :=
  match fmin maes with
  | none => none
  | some mae_min =>
    let pesos := maes.map (fun mae => fdiv mae_min mae)
    let suma_pesos := fsum pesos
    some (pesos.map (fun p => fdiv p suma_pesos))

/-! ## Helper lemmas -/

theorem sum_map_div (l : List ℚ) (c : ℚ) :
    (l.map (fun x => x / c)).sum = l.sum / c := by
  induction l with
  | nil => simp
  | cons x xs ih => simp [ih, add_div]

/-- C1. For strictly positive per-family MAE values, the ensemble weighter of
`entrenar_modelos_para_tipo` computes `weight_i = (min_j MAE_j) / MAE_i`,
normalizes by the sum, and the resulting weights sum to 1.0 within 1e-9
(indeed exactly, in exact arithmetic) with every weight in `[0, 1]`. -/
theorem pesos_ensemble_normalizados (maes : List ℚ) (hne : maes ≠ [])
    (hpos : ∀ m ∈ maes, 0 < m) :
    ∃ pesos, calcular_pesos_ensemble maes = some pesos ∧
      pesos.length = maes.length ∧
      |pesos.sum - 1| ≤ 1 / 1000000000 ∧
      ∀ p ∈ pesos, 0 ≤ p ∧ p ≤ 1 := by
  obtain ⟨m, hm⟩ := Option.isSome_iff_exists.mp (pymin_isSome hne)
  have hmpos : 0 < m := hpos m (pymin_mem hm)
  have hdiv : ∀ mae ∈ maes, pydiv m mae = some (m / mae) := by
    intro mae hmae
    rw [pydiv, if_neg (ne_of_gt (hpos mae hmae))]
  have hpesos_pos : ∀ p ∈ maes.map (fun mae => m / mae), 0 < p := by
    intro p hp
    obtain ⟨mae, hmae, rfl⟩ := List.mem_map.mp hp
    exact div_pos hmpos (hpos mae hmae)
  have hsum_pos : 0 < (maes.map (fun mae => m / mae)).sum := by
    apply List.sum_pos _ hpesos_pos
    simp [hne]
  set S := (maes.map (fun mae => m / mae)).sum with hS
  have hdiv2 : ∀ p ∈ maes.map (fun mae => m / mae),
      pydiv p S = some (p / S) := by
    intro p _
    rw [pydiv, if_neg (ne_of_gt hsum_pos)]
  refine ⟨(maes.map (fun mae => m / mae)).map (fun p => p / S), ?_, ?_, ?_, ?_⟩
  · simp only [calcular_pesos_ensemble, hm, mapaOpcional_eq_some hdiv]
    exact mapaOpcional_eq_some hdiv2
  · simp
  · rw [sum_map_div, ← hS, div_self (ne_of_gt hsum_pos)]
    norm_num
  · intro p hp
    obtain ⟨p0, hp0, rfl⟩ := List.mem_map.mp hp
    constructor
    · exact le_of_lt (div_pos (hpesos_pos p0 hp0) hsum_pos)
    · rw [div_le_one hsum_pos]
      exact List.single_le_sum (fun x hx => le_of_lt (hpesos_pos x hx)) p0 hp0

/-- Witness for `pesos_ensemble_normalizados` at the concrete MAE assignment
`[8, 10, 12, 15]`. -/
theorem pesos_ensemble_normalizados_witness :
    ([(8 : ℚ), 10, 12, 15] ≠ []) ∧ ((0 : ℚ) < 8 ∧ (0 : ℚ) < 10 ∧ (0 : ℚ) < 12 ∧ (0 : ℚ) < 15) ∧
    (∃ pesos, calcular_pesos_ensemble [(8 : ℚ), 10, 12, 15] = some pesos ∧
      pesos.length = 4 ∧
      |pesos.sum - 1| ≤ 1 / 1000000000 ∧
      ∀ p ∈ pesos, 0 ≤ p ∧ p ≤ 1) := by
  refine ⟨by simp, by norm_num, ?_⟩
  have h := pesos_ensemble_normalizados [(8 : ℚ), 10, 12, 15] (by simp)
    (by intro x hx; fin_cases hx <;> norm_num)
  simpa using h

theorem fadd_nan_left (b : Flotante) : fadd Flotante.nan b = Flotante.nan := by
  cases b <;> rfl

theorem fadd_nan_right (a : Flotante) : fadd a Flotante.nan = Flotante.nan := by
  cases a <;> rfl

theorem fdiv_nan_right (a : Flotante) : fdiv a Flotante.nan = Flotante.nan := by
  cases a <;> rfl

theorem foldl_fadd_nan (l : List Flotante) :
    l.foldl fadd Flotante.nan = Flotante.nan := by
  induction l with
  | nil => rfl
  | cons x xs ih => rw [List.foldl_cons, fadd_nan_left, ih]

theorem fsum_eq_nan : ∀ {l : List Flotante} {acc : Flotante},
    Flotante.nan ∈ l → l.foldl fadd acc = Flotante.nan := by
  intro l
  induction l with
  | nil => intro acc h; simp at h
  | cons x xs ih =>
    intro acc h
    rw [List.foldl_cons]
    rcases List.mem_cons.mp h with hx | hxs
    · rw [← hx, fadd_nan_right, foldl_fadd_nan]
    · exact ih hxs

theorem foldl_flt_num (x : ℚ) (xs : List ℚ) :
    (xs.map Flotante.num).foldl
        (fun m z => if flt z m then z else m) (Flotante.num x)
      = Flotante.num (xs.foldl (fun m z => if z < m then z else m) x) := by
  induction xs generalizing x with
  | nil => rfl
  | cons y ys ih =>
    rw [List.map_cons, List.foldl_cons, List.foldl_cons]
    rw [show flt (Flotante.num y) (Flotante.num x) = decide (y < x) from rfl]
    by_cases h : y < x <;> simp [h] <;> exact ih _

theorem foldl_qmin_mem (x : ℚ) (xs : List ℚ) :
    xs.foldl (fun m z => if z < m then z else m) x ∈ x :: xs := by
  induction xs generalizing x with
  | nil => simp
  | cons y ys ih =>
    rw [List.foldl_cons]
    by_cases h : y < x
    · rw [if_pos h]
      rcases List.mem_cons.mp (ih y) with hm | hm
      · rw [hm]; simp
      · simp [List.mem_cons_of_mem, hm]
    · rw [if_neg h]
      rcases List.mem_cons.mp (ih x) with hm | hm
      · rw [hm]; simp
      · simp [List.mem_cons_of_mem, hm]

theorem foldl_qmin_le (x : ℚ) (xs : List ℚ) :
    ∀ z ∈ x :: xs, xs.foldl (fun m z => if z < m then z else m) x ≤ z := by
  induction xs generalizing x with
  | nil =>
    intro z hz
    simp at hz
    simp [hz]
  | cons y ys ih =>
    intro z hz
    rw [List.foldl_cons]
    by_cases h : y < x
    · rw [if_pos h]
      rcases List.mem_cons.mp hz with hzx | hz'
      · rw [hzx]
        exact le_of_lt (lt_of_le_of_lt (ih y y (by simp)) h)
      · exact ih y z hz'
    · rw [if_neg h]
      rcases List.mem_cons.mp hz with hzx | hz'
      · rw [hzx]; exact ih x x (by simp)
      · rcases List.mem_cons.mp hz' with hzy | hz''
        · rw [hzy]
          exact le_trans (ih x x (by simp)) (not_lt.mp h)
        · exact ih x z (by simp [hz''])

theorem calcular_flotante_nan (maes : List ℚ) (h0 : (0 : ℚ) ∈ maes)
    (hnn : ∀ m ∈ maes, 0 ≤ m) :
    calcular_pesos_ensemble_flotante (maes.map Flotante.num)
      = some (maes.map (fun _ => Flotante.nan)) := by
  obtain ⟨x, xs, rfl⟩ : ∃ x xs, maes = x :: xs := by
    cases maes with
    | nil => simp at h0
    | cons x xs => exact ⟨x, xs, rfl⟩
  have hq0 : xs.foldl (fun m z => if z < m then z else m) x = 0 :=
    le_antisymm (foldl_qmin_le x xs 0 h0)
      (hnn _ (foldl_qmin_mem x xs))
  have hfmin : fmin ((x :: xs).map Flotante.num) = some (Flotante.num 0) := by
    rw [List.map_cons, fmin, foldl_flt_num, hq0]
  rw [calcular_pesos_ensemble_flotante, hfmin]
  simp only [List.map_map]
  have hmem : Flotante.nan ∈ (x :: xs).map
      ((fun mae => fdiv (Flotante.num 0) mae) ∘ Flotante.num) := by
    refine List.mem_map.mpr ⟨0, h0, ?_⟩
    simp [fdiv]
  rw [show fsum ((x :: xs).map
      ((fun mae => fdiv (Flotante.num 0) mae) ∘ Flotante.num))
      = Flotante.nan from fsum_eq_nan hmem]
  congr 1
  apply List.map_congr_left
  intro m _
  exact fdiv_nan_right _

/-- C8 counterexample. At the MAE assignment `[0, 10, 10, 10]` (all values
`np.float64`), the weighter of `entrenar_modelos_para_tipo` performs no
exclusion of the zero-MAE family: `mae_min = 0.0`, the division
`0.0 / 0.0` yields `nan` without raising, the `nan` poisons the sum and the
normalization, and the computation completes with every weight `nan` — not
the vector `[0, 1/3, 1/3, 1/3]` that exclusion-then-normalization would
give. -/
theorem pesos_mae_cero_nan_sin_exclusion :
    calcular_pesos_ensemble_flotante
        [Flotante.num 0, Flotante.num 10, Flotante.num 10, Flotante.num 10]
      = some [Flotante.nan, Flotante.nan, Flotante.nan, Flotante.nan] ∧
    calcular_pesos_ensemble_flotante
        [Flotante.num 0, Flotante.num 10, Flotante.num 10, Flotante.num 10]
      ≠ some [Flotante.num 0, Flotante.num (1 / 3), Flotante.num (1 / 3),
          Flotante.num (1 / 3)] := by
  have h := calcular_flotante_nan [(0 : ℚ), 10, 10, 10] (by simp)
    (by intro m hm; fin_cases hm <;> norm_num)
  have h2 : calcular_pesos_ensemble_flotante
      [Flotante.num 0, Flotante.num 10, Flotante.num 10, Flotante.num 10]
      = some [Flotante.nan, Flotante.nan, Flotante.nan, Flotante.nan] := by
    simpa using h
  refine ⟨h2, ?_⟩
  rw [h2]
  simp

/-- C8 (amended). The weighter performs no exclusion of zero-MAE families.
When some family's MAE is 0 (the MAEs being nonnegative `np.float64`
values), the `0.0 / 0.0` division yields `nan` without raising an error; the
`nan` propagates through the sum and the normalization, so the computation
completes normally but returns `nan` for every family's weight — the
zero-MAE family is never excluded, never treated as weight 0, and no
normalized weight vector is produced. -/
theorem pesos_mae_cero_todo_nan (maes : List ℚ) (h0 : (0 : ℚ) ∈ maes)
    (hnn : ∀ m ∈ maes, 0 ≤ m) :
    calcular_pesos_ensemble_flotante (maes.map Flotante.num)
      = some (maes.map (fun _ => Flotante.nan)) :=
  calcular_flotante_nan maes h0 hnn

/-- Witness for `pesos_mae_cero_todo_nan` at `[10, 0, 12, 15]`. -/
theorem pesos_mae_cero_todo_nan_witness :
    ((0 : ℚ) ∈ [(10 : ℚ), 0, 12, 15]) ∧
    ((0 : ℚ) ≤ 10 ∧ (0 : ℚ) ≤ 0 ∧ (0 : ℚ) ≤ 12 ∧ (0 : ℚ) ≤ 15) ∧
    calcular_pesos_ensemble_flotante
        ([(10 : ℚ), 0, 12, 15].map Flotante.num)
      = some ([(10 : ℚ), 0, 12, 15].map (fun _ => Flotante.nan)) := by
  have h0 : (0 : ℚ) ∈ [(10 : ℚ), 0, 12, 15] := by simp
  exact ⟨h0, by norm_num,
    pesos_mae_cero_todo_nan _ h0 (by intro m hm; fin_cases hm <;> norm_num)⟩

theorem filtro_iqr_length_le (df : List (Nat × ℚ)) :
    (filtro_iqr df).length ≤ df.length := by
  rw [filtro_iqr]
  rcases cuantil (df.map (·.2)) (1 / 4) with _ | q1 <;>
    rcases cuantil (df.map (·.2)) (3 / 4) with _ | q3 <;>
    simp [List.length_filter_le]

theorem crear_dataframe_length_le (datos : DatosNormalizados) :
    ((crear_dataframe_prophet (some datos)).getD []).length ≤
      (fechas_unicas (consolidar_datos_diarios datos)).length := by
  simp only [crear_dataframe_prophet, Option.getD_some]
  calc
    _ = _ := (List.perm_insertionSort _ _).length_eq
    _ ≤ _ := List.length_filter_le _ _
    _ ≤ _ := List.length_filter_le _ _
    _ ≤ _ := filtro_iqr_length_le _
    _ ≤ _ := List.length_filter_le _ _
    _ ≤ _ := List.length_filter_le _ _
    _ = _ := by rw [calcular_variable_objetivo, List.length_map]

/-- C3 (amended). No `InsufficientDataError` exists: the aggregation
`crear_dataframe_prophet` imposes no minimum day count and always returns a
DataFrame for loaded input, and the training step
`ejecutar_entrenamiento_modelos` skips every dataset with fewer than 30 rows
with a warning and still reports success (`True`) with no model trained. -/
theorem pocos_dias_se_omiten_sin_error (datasets : List (List ℚ))
    (maes : List ℚ) (h : ∀ ds ∈ datasets, ds.length < 30) :
    ejecutar_entrenamiento_modelos datasets maes = (true, []) ∧
    ∀ datos : DatosNormalizados,
      (crear_dataframe_prophet (some datos)).isSome = true := by
  constructor
  · rw [ejecutar_entrenamiento_modelos]
    have hsel : datasets.filterMap
        (fun ds => if ds.length < 30 then none else some ds) = [] := by
      rw [List.filterMap_eq_nil_iff]
      intro ds hds
      rw [if_pos (h ds hds)]
    rw [hsel]
    rfl
  · intro datos
    rfl

/-- Witness for `pocos_dias_se_omiten_sin_error` at a single 5-day dataset. -/
theorem pocos_dias_se_omiten_sin_error_witness :
    (([(10 : ℚ), 10, 10, 10, 10] : List ℚ).length < 30) ∧
    ejecutar_entrenamiento_modelos [[(10 : ℚ), 10, 10, 10, 10]]
      [(8 : ℚ), 10, 12, 15] = (true, []) := by
  refine ⟨by simp, ?_⟩
  exact (pocos_dias_se_omiten_sin_error [[(10 : ℚ), 10, 10, 10, 10]]
    [(8 : ℚ), 10, 12, 15] (by intro ds hds; simp at hds; simp [hds])).1

/-- A concrete 5-business-day input (Monday–Friday of week 0, one
reservation each day). -/
def datosPocosDias : DatosNormalizados :=
  ⟨[⟨0, some 4794⟩, ⟨1, some 4794⟩, ⟨2, some 4794⟩, ⟨3, some 4794⟩,
    ⟨4, some 4794⟩], [], []⟩

/-- C3 counterexample. On an input whose aggregation yields only 5 business
days — fewer than 30 — the pipeline does not fail: the aggregation returns a
DataFrame (it is not an error value), and the training step skips the short
dataset and reports success `(True)`; no `InsufficientDataError` is raised
anywhere. -/
theorem pipeline_pocos_dias_sin_error :
    (crear_dataframe_prophet (some datosPocosDias)).isSome = true ∧
    ((crear_dataframe_prophet (some datosPocosDias)).getD []).length < 30 ∧
    ejecutar_entrenamiento_modelos [[(10 : ℚ), 10, 10, 10, 10]]
      [(8 : ℚ), 10, 12, 15] = (true, []) := by
  refine ⟨rfl, ?_, rfl⟩
  have hle := crear_dataframe_length_le datosPocosDias
  have h5 : (fechas_unicas (consolidar_datos_diarios datosPocosDias)).length
      = 5 := by
    simp [fechas_unicas, consolidar_datos_diarios, datosPocosDias,
      List.insertionSort, List.orderedInsert, List.dedup]
  omega

/-- C2. Every row `(ds, y)` produced by `calcular_variable_objetivo`
satisfies `y = (sum(duration_minutes)/60 + 0.1 * event_count) / 8` over that
day's transactions. -/
theorem variable_objetivo_formula (txs : List Transaccion) (d : Nat) (y : ℚ)
    (hy : (d, y) ∈ calcular_variable_objetivo txs) :
    y = (((txs.filter (fun t => t.fecha = d)).map (·.duracion)).sum / 60
        + ((txs.filter (fun t => t.fecha = d)).length : ℚ) * (1 / 10)) / 8 := by
  rw [calcular_variable_objetivo] at hy
  obtain ⟨d', _, heq⟩ := List.mem_map.mp hy
  obtain ⟨rfl, rfl⟩ := Prod.mk.injEq .. ▸ Prod.ext_iff.mp heq
  rfl

/-- A single reservation of 4794 minutes on day 0 (a Monday). -/
def txsEjemplo : List Transaccion := [⟨0, 4794, TipoTransaccion.reserva⟩]

/-- Witness for `variable_objetivo_formula`: on `txsEjemplo` the day-0 row
carries `y = (4794/60 + 1 * 0.1) / 8 = 10`. -/
theorem variable_objetivo_formula_witness :
    ((0 : Nat), ((4794 : ℚ) / 60 + (1 : ℚ) * (1 / 10)) / 8) ∈
      calcular_variable_objetivo txsEjemplo ∧
    ((4794 : ℚ) / 60 + (1 : ℚ) * (1 / 10)) / 8 =
      (((txsEjemplo.filter (fun t => t.fecha = 0)).map (·.duracion)).sum / 60
        + ((txsEjemplo.filter (fun t => t.fecha = 0)).length : ℚ) * (1 / 10))
        / 8 := by
  have hm : ((0 : Nat), ((4794 : ℚ) / 60 + (1 : ℚ) * (1 / 10)) / 8) ∈
      calcular_variable_objetivo txsEjemplo := by
    simp [calcular_variable_objetivo, fechas_unicas, txsEjemplo,
      List.insertionSort, List.orderedInsert]
  exact ⟨hm, variable_objetivo_formula txsEjemplo 0 _ hm⟩

theorem sum_map_eq_const {l : List α} {g : α → ℚ} {c : ℚ}
    (h : ∀ x ∈ l, g x = c) : (l.map g).sum = l.length * c := by
  induction l with
  | nil => simp
  | cons x xs ih =>
    rw [List.map_cons, List.sum_cons, h x (by simp),
      ih (fun z hz => h z (by simp [hz])), List.length_cons]
    push_cast
    ring

theorem filtra_mapa_duracion (rs : List RegistroCrudo) (d : Nat) (c : ℚ)
    (tipo : TipoTransaccion)
    (h : ∀ r ∈ rs, r.fecha = d → r.duracion = none) :
    ((((rs.map (fun r =>
          (⟨r.fecha, r.duracion.getD c, tipo⟩ : Transaccion))).filter
        (fun t => t.fecha = d)).map (·.duracion)).sum
      = ((rs.filter (fun r => r.fecha = d)).length : ℚ) * c) ∧
    (((rs.map (fun r =>
          (⟨r.fecha, r.duracion.getD c, tipo⟩ : Transaccion))).filter
        (fun t => t.fecha = d)).length
      = (rs.filter (fun r => r.fecha = d)).length) := by
  have hfm : (rs.map (fun r =>
        (⟨r.fecha, r.duracion.getD c, tipo⟩ : Transaccion))).filter
        (fun t => t.fecha = d)
      = (rs.filter (fun r => r.fecha = d)).map
        (fun r => (⟨r.fecha, r.duracion.getD c, tipo⟩ : Transaccion)) := by
    rw [List.filter_map]
    rfl
  rw [hfm]
  refine ⟨?_, by rw [List.length_map]⟩
  rw [List.map_map]
  apply sum_map_eq_const
  intro r hr
  obtain ⟨hmem, hcond⟩ := List.mem_filter.mp hr
  have hd : r.fecha = d := by simpa using hcond
  simp [h r hmem hd]

/-- C9. When every record of a day lacks the `duracion` field, the per-kind
defaults (45 min per reservation, 10 min per conversation, 5 min per call)
substituted by `consolidar_datos_diarios` flow into that day's target `y`:
`y = ((45·nR + 10·nC + 5·nL)/60 + (nR + nC + nL)·0.1) / 8` where `nR`,
`nC`, `nL` count the day's reservations, conversations and calls. -/
theorem duraciones_por_defecto (datos : DatosNormalizados) (d : Nat)
    (hr : ∀ r ∈ datos.reservas, r.fecha = d → r.duracion = none)
    (hc : ∀ r ∈ datos.conversaciones, r.fecha = d → r.duracion = none)
    (hl : ∀ r ∈ datos.llamadas, r.fecha = d → r.duracion = none)
    (y : ℚ)
    (hy : (d, y) ∈
      calcular_variable_objetivo (consolidar_datos_diarios datos)) :
    y = ((45 * ((datos.reservas.filter (fun r => r.fecha = d)).length : ℚ)
          + 10 * ((datos.conversaciones.filter
              (fun r => r.fecha = d)).length : ℚ)
          + 5 * ((datos.llamadas.filter (fun r => r.fecha = d)).length : ℚ))
            / 60
        + (((datos.reservas.filter (fun r => r.fecha = d)).length : ℚ)
          + ((datos.conversaciones.filter
              (fun r => r.fecha = d)).length : ℚ)
          + ((datos.llamadas.filter (fun r => r.fecha = d)).length : ℚ))
            * (1 / 10)) / 8 := by
  rw [calcular_variable_objetivo] at hy
  obtain ⟨d', _, heq⟩ := List.mem_map.mp hy
  obtain ⟨rfl, rfl⟩ := Prod.mk.injEq .. ▸ Prod.ext_iff.mp heq
  obtain ⟨hsumR, hlenR⟩ := filtra_mapa_duracion datos.reservas d 45
    TipoTransaccion.reserva hr
  obtain ⟨hsumC, hlenC⟩ := filtra_mapa_duracion datos.conversaciones d 10
    TipoTransaccion.conversacion hc
  obtain ⟨hsumL, hlenL⟩ := filtra_mapa_duracion datos.llamadas d 5
    TipoTransaccion.llamada hl
  show ((((consolidar_datos_diarios datos).filter
          (fun t => t.fecha = d)).map (·.duracion)).sum / 60
      + ((((consolidar_datos_diarios datos).filter
          (fun t => t.fecha = d)).length : ℚ)) * (1 / 10)) / 8 = _
  rw [consolidar_datos_diarios, List.filter_append, List.filter_append,
    List.map_append, List.map_append, List.sum_append, List.sum_append,
    List.length_append, List.length_append, hsumR, hsumC, hsumL,
    hlenR, hlenC, hlenL]
  push_cast
  ring

/-- One reservation and two conversations on day 0, all lacking the
`duracion` field. -/
def datosEjemploNueve : DatosNormalizados :=
  ⟨[⟨0, none⟩], [⟨0, none⟩, ⟨0, none⟩], []⟩

/-- Witness for `duraciones_por_defecto` on `datosEjemploNueve`: the day-0
target is `((45·1 + 10·2 + 5·0)/60 + 3·0.1)/8`. -/
theorem duraciones_por_defecto_witness :
    ((0 : Nat), (((45 : ℚ) + (10 + (10 + 0))) / 60 + (3 : ℚ) * (1 / 10)) / 8)
      ∈ calcular_variable_objetivo
          (consolidar_datos_diarios datosEjemploNueve) ∧
    (((45 : ℚ) + (10 + (10 + 0))) / 60 + (3 : ℚ) * (1 / 10)) / 8
      = ((45 * ((datosEjemploNueve.reservas.filter
              (fun r => r.fecha = 0)).length : ℚ)
          + 10 * ((datosEjemploNueve.conversaciones.filter
              (fun r => r.fecha = 0)).length : ℚ)
          + 5 * ((datosEjemploNueve.llamadas.filter
              (fun r => r.fecha = 0)).length : ℚ)) / 60
        + (((datosEjemploNueve.reservas.filter
              (fun r => r.fecha = 0)).length : ℚ)
          + ((datosEjemploNueve.conversaciones.filter
              (fun r => r.fecha = 0)).length : ℚ)
          + ((datosEjemploNueve.llamadas.filter
              (fun r => r.fecha = 0)).length : ℚ)) * (1 / 10)) / 8 := by
  have hm : ((0 : Nat),
      (((45 : ℚ) + (10 + (10 + 0))) / 60 + (3 : ℚ) * (1 / 10)) / 8)
      ∈ calcular_variable_objetivo
          (consolidar_datos_diarios datosEjemploNueve) := by
    simp [calcular_variable_objetivo, fechas_unicas,
      consolidar_datos_diarios, datosEjemploNueve,
      List.insertionSort, List.orderedInsert]
  refine ⟨hm, duraciones_por_defecto datosEjemploNueve 0 ?_ ?_ ?_ _ hm⟩
  · intro r hrm _
    simp [datosEjemploNueve] at hrm
    simp [hrm]
  · intro r hrm _
    simp [datosEjemploNueve] at hrm
    simp [hrm]
  · intro r hrm _
    simp [datosEjemploNueve] at hrm

/-- C4 counterexample. The ForecastPoint with
`yhat_lower = yhat = yhat_upper = 5` has an ordered interval, yet
`generar_recomendaciones_staffing` computes `optimal = max(4, ceil(5/8)) = 4`
and `max = ceil(5/8) = 1`, so `personnel.optimal ≤ personnel.max` fails. -/
theorem staffing_optimo_supera_maximo :
    ((5 : ℚ) ≤ (5 : ℚ) ∧ (5 : ℚ) ≤ (5 : ℚ)) ∧
    (personal_de_punto ⟨0, 5, 5, 5⟩).minimo
      ≤ (personal_de_punto ⟨0, 5, 5, 5⟩).optimo ∧
    ¬((personal_de_punto ⟨0, 5, 5, 5⟩).optimo
      ≤ (personal_de_punto ⟨0, 5, 5, 5⟩).maximo) := by
  have hc : pyceil ((5 : ℚ) / 8) = 1 := by
    rw [pyceil, Int.ceil_eq_iff]
    constructor <;> norm_num
  refine ⟨⟨le_refl _, le_refl _⟩, ?_, ?_⟩ <;>
    simp [personal_de_punto, hc]

/-- C4 (amended). For a ForecastPoint with an ordered interval,
`personnel.min ≤ personnel.optimal` always holds, and
`personnel.optimal ≤ personnel.max` holds provided
`personnel.max = ceil(yhat_upper/8)` is at least 4 (i.e. `yhat_upper > 24`);
for smaller upper bounds the floor of 4 in `optimal` can exceed `max`. -/
theorem staffing_monotono_si_maximo_suficiente (row : ForecastPoint)
    (h1 : row.yhat_lower ≤ row.yhat) (h2 : row.yhat ≤ row.yhat_upper) :
    (personal_de_punto row).minimo ≤ (personal_de_punto row).optimo ∧
    (4 ≤ (personal_de_punto row).maximo →
      (personal_de_punto row).optimo ≤ (personal_de_punto row).maximo) := by
  have hm1 : pyceil (row.yhat_lower / 8) ≤ pyceil (row.yhat / 8) := by
    rw [pyceil, pyceil]
    exact Int.ceil_le_ceil (by gcongr ?_ / 8)
  have hm2 : pyceil (row.yhat / 8) ≤ pyceil (row.yhat_upper / 8) := by
    rw [pyceil, pyceil]
    exact Int.ceil_le_ceil (by gcongr ?_ / 8)
  constructor
  · exact max_le_max (by norm_num) hm1
  · intro hmax
    exact max_le hmax hm2

/-- Witness for `staffing_monotono_si_maximo_suficiente` at the
ForecastPoint `(yhat = 40, lower = 30, upper = 48)`. -/
theorem staffing_monotono_witness :
    ((30 : ℚ) ≤ (40 : ℚ)) ∧ ((40 : ℚ) ≤ (48 : ℚ)) ∧
    ((personal_de_punto ⟨0, 40, 30, 48⟩).minimo
        ≤ (personal_de_punto ⟨0, 40, 30, 48⟩).optimo ∧
      (4 ≤ (personal_de_punto ⟨0, 40, 30, 48⟩).maximo →
        (personal_de_punto ⟨0, 40, 30, 48⟩).optimo
          ≤ (personal_de_punto ⟨0, 40, 30, 48⟩).maximo)) :=
  ⟨by norm_num, by norm_num,
    staffing_monotono_si_maximo_suficiente ⟨0, 40, 30, 48⟩
      (by norm_num) (by norm_num)⟩

theorem detectar_single_countP (row : ForecastPoint) (p : Alerta → Bool) :
    (detectar_alertas (some [row])).countP p
      = (alertas_de_punto row).countP p := by
  rw [detectar_alertas]
  rw [if_neg (by simp)]
  rw [List.Perm.countP_eq p (List.perm_insertionSort _ _)]
  rw [if_neg (by simp)]
  simp

theorem countP_critica (row : ForecastPoint) :
    (alertas_de_punto row).countP (fun a => a.tipo == TipoAlerta.CRITICA)
      = if 60 < row.yhat then 1 else 0 := by
  rw [alertas_de_punto]
  split_ifs <;> rfl

theorem countP_alta (row : ForecastPoint) :
    (alertas_de_punto row).countP (fun a => a.tipo == TipoAlerta.ALTA)
      = if 60 < row.yhat then 0 else if 50 < row.yhat then 1 else 0 := by
  rw [alertas_de_punto]
  split_ifs <;> rfl

theorem countP_baja (row : ForecastPoint) :
    (alertas_de_punto row).countP (fun a => a.tipo == TipoAlerta.BAJA)
      = if 60 < row.yhat then 0 else if 50 < row.yhat then 0
        else if row.yhat < 25 then 1 else 0 := by
  rw [alertas_de_punto]
  split_ifs <;> rfl

theorem countP_incertidumbre (row : ForecastPoint) :
    (alertas_de_punto row).countP (fun a => a.tipo == TipoAlerta.INCERTIDUMBRE)
      = if 15 < row.yhat_upper - row.yhat then 1 else 0 := by
  rw [alertas_de_punto]
  split_ifs <;> rfl

/-- C5 counterexample. For the ForecastPoint with `yhat = 10`
(so `yhat * 8 = 80 > 60`, which under the claim's reading must raise
CRITICAL), `detectar_alertas` compares `yhat` itself — not `yhat * 8` — with
the thresholds and therefore emits a BAJA (LOW) alert and no CRITICAL
alert. -/
theorem alerta_umbral_sin_factor_ocho :
    ((10 : ℚ) * 8 > 60) ∧
    (detectar_alertas (some [⟨0, 10, 10, 10⟩])).countP
      (fun a => a.tipo == TipoAlerta.CRITICA) = 0 ∧
    (detectar_alertas (some [⟨0, 10, 10, 10⟩])).countP
      (fun a => a.tipo == TipoAlerta.BAJA) = 1 := by
  refine ⟨by norm_num, ?_, ?_⟩
  · rw [detectar_single_countP, countP_critica]
    norm_num
  · rw [detectar_single_countP, countP_baja]
    norm_num

/-- C5 (amended). The alert detector applies its hard-coded thresholds
directly to `yhat` (treating `yhat` itself as predicted hours, with no `*8`
conversion): exactly one CRITICAL alert when `yhat > 60`, one HIGH alert
when `50 < yhat ≤ 60`, one LOW alert when `yhat < 25`, and one UNCERTAINTY
alert when `yhat_upper - yhat > 15`. -/
theorem alertas_umbrales_directos (row : ForecastPoint) :
    ((detectar_alertas (some [row])).countP
        (fun a => a.tipo == TipoAlerta.CRITICA)
      = if 60 < row.yhat then 1 else 0)
    ∧ ((detectar_alertas (some [row])).countP
        (fun a => a.tipo == TipoAlerta.ALTA)
      = if 50 < row.yhat ∧ row.yhat ≤ 60 then 1 else 0)
    ∧ ((detectar_alertas (some [row])).countP
        (fun a => a.tipo == TipoAlerta.BAJA)
      = if row.yhat < 25 then 1 else 0)
    ∧ ((detectar_alertas (some [row])).countP
        (fun a => a.tipo == TipoAlerta.INCERTIDUMBRE)
      = if 15 < row.yhat_upper - row.yhat then 1 else 0) := by
  rw [detectar_single_countP, detectar_single_countP, detectar_single_countP,
    detectar_single_countP, countP_critica, countP_alta, countP_baja,
    countP_incertidumbre]
  refine ⟨rfl, ?_, ?_, rfl⟩
  · by_cases h1 : 60 < row.yhat
    · rw [if_pos h1, if_neg (by rintro ⟨_, hy⟩; linarith)]
    · rw [if_neg h1]
      by_cases h2 : 50 < row.yhat
      · rw [if_pos h2, if_pos ⟨h2, not_lt.mp h1⟩]
      · rw [if_neg h2, if_neg (by rintro ⟨hy, _⟩; exact h2 hy)]
  · by_cases h1 : 60 < row.yhat
    · rw [if_pos h1, if_neg (by intro hy; linarith)]
    · rw [if_neg h1]
      by_cases h2 : 50 < row.yhat
      · rw [if_pos h2, if_neg (by intro hy; linarith)]
      · rw [if_neg h2]

/-- C7. A ForecastPoint with `yhat = 65` (thresholds 60/50/25) produces
exactly one CRITICAL alert and no HIGH and no LOW alert; the CRITICA, ALTA
and BAJA demand tiers are an `if/elif/elif` chain, so at most one of them
can fire for any single ForecastPoint, with CRITICAL taking precedence. -/
theorem alerta_critica_excluyente (ds : Nat) (l u : ℚ) :
    ((detectar_alertas (some [⟨ds, 65, l, u⟩])).countP
        (fun a => a.tipo == TipoAlerta.CRITICA) = 1)
    ∧ ((detectar_alertas (some [⟨ds, 65, l, u⟩])).countP
        (fun a => a.tipo == TipoAlerta.ALTA) = 0)
    ∧ ((detectar_alertas (some [⟨ds, 65, l, u⟩])).countP
        (fun a => a.tipo == TipoAlerta.BAJA) = 0)
    ∧ (∀ row : ForecastPoint,
        (alertas_de_punto row).countP
          (fun a => a.tipo == TipoAlerta.CRITICA
            || a.tipo == TipoAlerta.ALTA
            || a.tipo == TipoAlerta.BAJA) ≤ 1) := by
  refine ⟨?_, ?_, ?_, ?_⟩
  · rw [detectar_single_countP, countP_critica]
    norm_num
  · rw [detectar_single_countP, countP_alta]
    norm_num
  · rw [detectar_single_countP, countP_baja]
    norm_num
  · intro row
    rw [alertas_de_punto]
    split_ifs <;> simp [List.countP_cons, List.countP_append]

/-- C10. A `None` forecast and an empty forecast both yield zero alerts and
zero staffing recommendations, with no error. -/
theorem entradas_vacias_sin_alertas_ni_recomendaciones :
    detectar_alertas none = [] ∧
    detectar_alertas (some []) = [] ∧
    generar_recomendaciones_staffing none = [] ∧
    generar_recomendaciones_staffing (some []) = [] :=
  ⟨rfl, rfl, rfl, rfl⟩

theorem generar_fechas_futuras_laborales (fecha n : Nat) :
    ∀ d ∈ generar_fechas_futuras fecha n, diaSemana d < 6 := by
  induction fecha, n using generar_fechas_futuras.induct with
  | case1 f =>
    intro d hd
    rw [generar_fechas_futuras] at hd
    simp_all
  | case2 f n h1 h2 ih =>
    intro d hd
    rw [generar_fechas_futuras] at hd
    simp only [if_neg h1, if_pos h2, List.mem_cons] at hd
    rcases hd with rfl | hd
    · exact h2
    · exact ih d hd
  | case3 f n h1 h2 ih =>
    intro d hd
    rw [generar_fechas_futuras] at hd
    simp only [if_neg h1, if_neg h2] at hd
    exact ih d hd

/-- C6. No aggregated day and no generated future date falls on a Sunday:
every row of the DataFrame built by `crear_dataframe_prophet`, every date
produced by the future-date loop of `estimar_regresores_futuros`, and every
date kept by `generar_predicciones_automaticas` has weekday Monday–Saturday
(`weekday() != 6`). -/
theorem sin_domingos :
    (∀ datos : DatosNormalizados,
      ((crear_dataframe_prophet (some datos)).getD []).all
        (fun p => diaSemana p.1 != 6) = true)
    ∧ (∀ inicio n : Nat,
      (generar_fechas_futuras inicio n).all (fun d => diaSemana d != 6)
        = true)
    ∧ (∀ hist : List Nat, ∀ ultimo dias hoy : Nat,
      (fechas_generar_predicciones hist ultimo dias hoy).all
        (fun d => diaSemana d != 6) = true) := by
  refine ⟨?_, ?_, ?_⟩
  · intro datos
    rw [List.all_eq_true]
    intro p hp
    simp only [crear_dataframe_prophet, Option.getD_some] at hp
    have hp2 := (List.perm_insertionSort _ _).mem_iff.mp hp
    obtain ⟨_, hcond⟩ := List.mem_filter.mp hp2
    simp only [decide_eq_true_eq] at hcond
    simp only [bne_iff_ne]
    omega
  · intro inicio n
    rw [List.all_eq_true]
    intro d hd
    have := generar_fechas_futuras_laborales inicio n d hd
    simp only [bne_iff_ne]
    omega
  · intro hist ultimo dias hoy
    rw [List.all_eq_true]
    intro d hd
    rw [fechas_generar_predicciones] at hd
    have hd2 := List.mem_of_mem_take hd
    obtain ⟨hd3, _⟩ := List.mem_filter.mp hd2
    obtain ⟨_, hcond⟩ := List.mem_filter.mp hd3
    simp only [decide_eq_true_eq] at hcond
    simp only [bne_iff_ne]
    omega
